import Mathlib

/-!
Shallow embedding of the points-and-tournament ledger core of the danny_bot
repository, together with proofs settling the specification claims.

The definitions mirror the Python source:
  * `calculate_points`            — systems/leaderboard/calculator.py, PointsCalculator.calculate_points
  * `weekRows`, `aggFor`, `validLeaderboardResult`, `get_leaderboard_data_det`
                                  — systems/leaderboard/database.py, LeaderboardDatabase.get_leaderboard_data
  * `get_current_week_number`, `initialize_tournament_week`, `save_leaderboard_snapshot`
                                  — systems/leaderboard/database.py
  * `reset_guild_tournament`      — systems/leaderboard/tournament.py, TournamentManager
  * `update_deal_in_both_systems`, `dispute_deal`, `reject_deal`
                                  — commands/admin_commands.py, AdminCommands
  * `calculate_landscaping_points`, `landscaping_submission_points`
                                  — ui/views/deal_submission.py, LandscapingDealModal
-/

namespace DannyBot

/-! ### Python numeric primitives -/

/-- Python `int(...)` applied to a numeric value: truncation toward zero. -/
def int_trunc (q : ℚ) : ℤ :=
  if q < 0 then -⌊-q⌋ else ⌊q⌋

/-- Python `round(...)` with no digits argument: round half to even. -/
def py_round (q : ℚ) : ℤ :=
  let f := ⌊q⌋
  let frac := q - (f : ℚ)
  if frac < 1/2 then f
  else if 1/2 < frac then f + 1
  else if Even f then f else f + 1

/-- Python `str.lower()` on one character: the source only lower-cases ASCII
niche and deal-type names, so the ASCII case suffices. -/
def py_lower_char (c : Char) : Char :=
  if 'A' ≤ c ∧ c ≤ 'Z' then Char.ofNat (c.toNat + 32) else c

/-- Python `str.lower()` on a string. -/
def py_lower (s : String) : String := ⟨s.data.map py_lower_char⟩

theorem int_trunc_intCast (n : ℤ) : int_trunc (n : ℚ) = n := by
  unfold int_trunc
  by_cases h : (n : ℚ) < 0
  · rw [if_pos h]
    rw [show -(n : ℚ) = ((-n : ℤ) : ℚ) by push_cast; ring]
    rw [Int.floor_intCast]
    ring
  · rw [if_neg h, Int.floor_intCast]

theorem pl_close : py_lower "close" = "close" := by decide

theorem pl_set : py_lower "set" = "set" := by decide

theorem pl_self_generated : py_lower "self_generated" = "self_generated" := by decide

theorem pl_standard : py_lower "standard" = "standard" := by decide

theorem pl_solar : py_lower "solar" = "solar" := by decide

theorem pl_fiber : py_lower "fiber" = "fiber" := by decide

theorem pl_landscaping : py_lower "landscaping" = "landscaping" := by decide

/-! ### PointsCalculator (systems/leaderboard/calculator.py)

`POINTS_CONFIG` is a dict of dicts with numeric values; each niche table is
embedded as an association list of rationals and `cfg_get` plays the role of
`dict.get(key, default)`. -/

def solar_config : List (String × ℚ) :=
  [("standard", 1), ("self_generated", 2), ("set", 1), ("close", 1), ("self", 2)]

def fiber_config : List (String × ℚ) :=
  [("standard", 1/5), ("self_generated", 2), ("set", 1), ("close", 1), ("self", 2)]

def landscaping_config : List (String × ℚ) :=
  [("standard", 1), ("self_generated", 2), ("set", 1), ("close", 1), ("self", 2),
   ("bonus_threshold", 50000), ("bonus_per_50k", 1)]

/-- `POINTS_CONFIG.get(niche, POINTS_CONFIG['solar'])`. -/
def points_config (niche : String) : List (String × ℚ) :=
  if niche = "solar" then solar_config
  else if niche = "fiber" then fiber_config
  else if niche = "landscaping" then landscaping_config
  else solar_config

/-- Python `dict.get(key, default)` on an association list. -/
def cfg_get (cfg : List (String × ℚ)) (key : String) (dflt : ℚ) : ℚ :=
  match cfg.lookup key with
  | some v => v
  | none => dflt

/-- `PointsCalculator.calculate_points(deal_type, niche, deal_amount)`:
lower-cases both strings, looks up the niche table (default solar) and the
deal-type base (default 1), forces fiber standard to 0.2, adds the
landscaping value bonus `int((amount - threshold) // 50000) * bonus_per_50k`
when `amount > threshold` and `amount > 0`, rounds fiber totals with Python
`round`, and returns `max(1, int(total_points))`. -/
def calculate_points (deal_type niche : String) (deal_amount : ℚ) : ℤ :=
  let nicheL := py_lower niche
  let deal_typeL := py_lower deal_type
  let niche_config := points_config nicheL
  let base0 : ℚ := cfg_get niche_config deal_typeL 1
  let base_points : ℚ :=
    if nicheL = "fiber" ∧ deal_typeL = "standard" then 1/5 else base0
  let bonus_points : ℚ :=
    if nicheL = "landscaping" ∧ 0 < deal_amount then
      let threshold : ℚ := cfg_get niche_config "bonus_threshold" 50000
      let bonus_per_50k : ℚ := cfg_get niche_config "bonus_per_50k" 1
      if threshold < deal_amount then
        ((⌊(deal_amount - threshold) / 50000⌋ : ℤ) : ℚ) * bonus_per_50k
      else 0
    else 0
  let total_points : ℚ := base_points + bonus_points
  let total_int : ℤ :=
    if nicheL = "fiber" then py_round total_points else int_trunc total_points
  max 1 total_int

/-! ### Deals table and the leaderboard query (systems/leaderboard/database.py) -/

/-- One row of the `deals` table. -/
structure Deal where
  deal_id : ℕ
  guild_id : ℕ
  user_id : ℕ
  username : String
  deal_type : String
  niche : String
  points : ℤ
  description : String
  verified : Bool
  disputed : Bool
  week_number : ℕ
  admin_submitted : Bool
  admin_user_id : Option ℕ
deriving DecidableEq

/-- Rows selected by the week branch of `get_leaderboard_data`:
`WHERE guild_id = ? AND week_number = ? AND verified = 1`.
No `disputed` condition appears in the SQL. -/
def weekRows (deals : List Deal) (g w : ℕ) : List Deal :=
  deals.filter (fun d => d.guild_id == g && d.week_number == w && d.verified)

/-- One aggregate row of the leaderboard query result. -/
structure LeaderboardRow where
  user_id : ℕ
  username : String
  total_points : ℤ
  standard_deals : ℕ
  self_generated_deals : ℕ
  total_deals : ℕ
deriving DecidableEq

/-- The deals of one `GROUP BY user_id, username` group. -/
def userDeals (rows : List Deal) (u : ℕ) (name : String) : List Deal :=
  rows.filter (fun d => d.user_id == u && d.username == name)

/-- The aggregate computed for one group: `SUM(points)`, the two
`SUM(CASE WHEN deal_type = ... THEN 1 ELSE 0 END)` counters and `COUNT(*)`. -/
def aggFor (rows : List Deal) (u : ℕ) (name : String) : LeaderboardRow :=
  let ds := userDeals rows u name
  { user_id := u
    username := name
    total_points := (ds.map (fun d => d.points)).sum
    standard_deals := (ds.filter (fun d => d.deal_type == "standard")).length
    self_generated_deals := (ds.filter (fun d => d.deal_type == "self_generated")).length
    total_deals := ds.length }

/-- The distinct `GROUP BY` keys occurring in the selected rows. -/
def userKeys (rows : List Deal) : List (ℕ × String) :=
  (rows.map (fun d => (d.user_id, d.username))).dedup

/-- The multiset of aggregate rows produced by the query, in one canonical
order (the `ORDER BY` clause constrains the output order only partially). -/
def canonicalAgg (deals : List Deal) (g w : ℕ) : List LeaderboardRow :=
  (userKeys (weekRows deals g w)).map (fun k => aggFor (weekRows deals g w) k.1 k.2)

/-- The comparison realised by `ORDER BY total_points DESC, total_deals DESC`:
`a` may be listed no later than `b` iff this holds. -/
def lbLe (a b : LeaderboardRow) : Bool :=
  b.total_points < a.total_points ||
    (a.total_points == b.total_points && b.total_deals ≤ a.total_deals)

/-- A list is admissible as the query output order iff consecutive rows
respect the `ORDER BY` keys. -/
def lbOrdered (out : List LeaderboardRow) : Prop :=
  List.Pairwise (fun a b => lbLe a b = true) out

/-- `get_leaderboard_data(week)` as a relation: an output list is valid iff it
is a permutation of the grouped aggregates that satisfies the `ORDER BY`
clause.  SQLite guarantees nothing more: the query has no tertiary sort key,
so the relative order of rows tied on both keys is unspecified. -/
def validLeaderboardResult (deals : List Deal) (g w : ℕ) (out : List LeaderboardRow) : Prop :=
  out.Perm (canonicalAgg deals g w) ∧ lbOrdered out

/-- Insertion step of an insertion sort by `lbLe`. -/
def insertRow (a : LeaderboardRow) : List LeaderboardRow → List LeaderboardRow
  | [] => [a]
  | b :: l => if lbLe a b then a :: b :: l else b :: insertRow a l

/-- Insertion sort by `lbLe`. -/
def sortRows (l : List LeaderboardRow) : List LeaderboardRow :=
  l.foldr insertRow []

/-- A deterministic representative of `get_leaderboard_data(week)`: the
grouped aggregates arranged in one `ORDER BY`-respecting order. -/
def get_leaderboard_data_det (deals : List Deal) (g w : ℕ) : List LeaderboardRow :=
  sortRows (canonicalAgg deals g w)

/-! ### Tournament settings, weeks and snapshots (systems/leaderboard/database.py) -/

/-- One row of the `tournament_settings` table. -/
structure SettingsRow where
  setting_id : ℕ
  guild_id : ℕ
  current_week : ℕ
  week_start_date : String
deriving DecidableEq

/-- One row of the `tournament_weeks` table (primary key (guild_id, week_number)). -/
structure WeekRow where
  guild_id : ℕ
  week_number : ℕ
  start_date : String
deriving DecidableEq

/-- `SELECT current_week FROM tournament_settings WHERE guild_id = ?
ORDER BY setting_id DESC LIMIT 1`, defaulting to 1 on an empty result. -/
def get_current_week_number (settings : List SettingsRow) (g : ℕ) : ℕ :=
  let rows := settings.filter (fun r => r.guild_id == g)
  match rows.foldl (fun acc r =>
      match acc with
      | none => some r
      | some b => if b.setting_id < r.setting_id then some r else some b) none with
  | some r => r.current_week
  | none => 1

/-- `INSERT OR IGNORE INTO tournament_weeks` keyed on (guild_id, week_number). -/
def initialize_tournament_week (weeks : List WeekRow) (g w : ℕ) (d : String) : List WeekRow :=
  if weeks.any (fun r => r.guild_id == g && r.week_number == w) then weeks
  else weeks ++ [⟨g, w, d⟩]

/-- One row of the `leaderboard_snapshots` table.  Its only key is the
autoincrement `snapshot_id`; the `niche` column defaults to `'solar'`
because the insert statement does not mention it. -/
structure SnapshotRow where
  snapshot_id : ℕ
  guild_id : ℕ
  user_id : ℕ
  username : String
  niche : String
  total_points : ℤ
  standard_deals : ℕ
  self_generated_deals : ℕ
  total_deals : ℕ
  rank_position : ℕ
  snapshot_date : String
  week_number : ℕ
deriving DecidableEq

/-- The `leaderboard_snapshots` table: its rows plus the next autoincrement id. -/
structure SnapTable where
  rows : List SnapshotRow
  nextId : ℕ
deriving DecidableEq

/-- The snapshot row built from one leaderboard entry.  The entries coming
from `get_leaderboard_data` carry no `rank` key, so `entry.get('rank', 0)`
yields 0. -/
def mkSnapshotRow (id g : ℕ) (e : LeaderboardRow) (w : ℕ) (date : String) : SnapshotRow :=
  { snapshot_id := id
    guild_id := g
    user_id := e.user_id
    username := e.username
    niche := "solar"
    total_points := e.total_points
    standard_deals := e.standard_deals
    self_generated_deals := e.self_generated_deals
    total_deals := e.total_deals
    rank_position := 0
    snapshot_date := date
    week_number := w }

/-- `INSERT OR REPLACE INTO leaderboard_snapshots (...)`: the fresh row gets
the next autoincrement `snapshot_id`; a conflict could only arise on that
primary key, so any existing row with the same id would be replaced. -/
def insert_or_replace_snapshot (t : SnapTable) (g : ℕ) (e : LeaderboardRow)
    (w : ℕ) (date : String) : SnapTable :=
  { rows := t.rows.filter (fun r => r.snapshot_id ≠ t.nextId)
      ++ [mkSnapshotRow t.nextId g e w date]
    nextId := t.nextId + 1 }

/-- `LeaderboardDatabase.save_leaderboard_snapshot`: one insert per entry. -/
def save_leaderboard_snapshot (t : SnapTable) (g : ℕ) (data : List LeaderboardRow)
    (w : ℕ) (date : String) : SnapTable :=
  data.foldl (fun t e => insert_or_replace_snapshot t g e w date) t

/-- The leaderboard database state touched by the tournament manager. -/
structure LbState where
  deals : List Deal
  settings : List SettingsRow
  weeks : List WeekRow
  snapshots : SnapTable
deriving DecidableEq

/-- `TournamentManager.reset_guild_tournament`: reads the current week from
`tournament_settings`, inserts week current+1 into `tournament_weeks`, and
archives the current week's leaderboard as a snapshot.  It writes neither
the `tournament_settings` table nor the deals. -/
def reset_guild_tournament (s : LbState) (g : ℕ) (today : String) : LbState :=
  let current_week := get_current_week_number s.settings g
  let new_week := current_week + 1
  let weeks2 := initialize_tournament_week s.weeks g new_week today
  let leaderboard_data := get_leaderboard_data_det s.deals g current_week
  let snaps2 := save_leaderboard_snapshot s.snapshots g leaderboard_data current_week today
  { s with weeks := weeks2, snapshots := snaps2 }

/-! ### Admin mutations (commands/admin_commands.py) -/

/-- One row of the core database `deals` table (the columns touched by the
admin update path). -/
structure CoreDeal where
  deal_id : ℕ
  guild_id : ℕ
  user_id : ℕ
  niche : String
  deal_type : String
  points_awarded : ℤ
  admin_submitted : Bool
deriving DecidableEq

/-- The `updates` dict passed to `_update_deal_in_both_systems`: each key is
present or absent. -/
structure DealUpdates where
  verified : Option Bool := none
  disputed : Option Bool := none
  points : Option ℤ := none
deriving DecidableEq

/-- Core-database half of the update: `points` maps to `points_awarded`;
`verified` and `disputed` are skipped because the core table lacks them. -/
def applyCoreUpdate (u : DealUpdates) (d : CoreDeal) : CoreDeal :=
  match u.points with
  | some p => { d with points_awarded := p }
  | none => d

/-- Leaderboard-database half of the update: every key is applied. -/
def applyLbUpdate (u : DealUpdates) (d : Deal) : Deal :=
  let d := match u.verified with
    | some v => { d with verified := v }
    | none => d
  let d := match u.disputed with
    | some v => { d with disputed := v }
    | none => d
  match u.points with
  | some p => { d with points := p }
  | none => d

/-- One row of the `disputes` table. -/
structure DisputeRow where
  dispute_id : ℕ
  guild_id : ℕ
  deal_id : ℕ
  user_id : ℕ
  reason : String
  status : String
deriving DecidableEq

/-- `AdminCommands._update_deal_in_both_systems`: both halves run
`UPDATE deals SET ... WHERE deal_id = ? AND guild_id = ?`.  A deal id that
matches no row under the guild filter updates nothing, and the Python body
raises no error in that case, so the result is always a success. -/
def update_deal_in_both_systems (dealId g : ℕ) (u : DealUpdates)
    (core : List CoreDeal) (lb : List Deal) :
    Except String (List CoreDeal × List Deal) :=
  .ok
    (core.map (fun d =>
        if d.deal_id == dealId && d.guild_id == g then applyCoreUpdate u d else d),
      lb.map (fun d =>
        if d.deal_id == dealId && d.guild_id == g then applyLbUpdate u d else d))

/-- `AdminCommands.dispute_deal`: calls `_update_deal_in_both_systems` with
`updates={'disputed': True}`.  It neither reads nor writes the `disputes`
table and performs no pending-dispute check. -/
def dispute_deal (dealId g : ℕ) (core : List CoreDeal) (lb : List Deal)
    (disputes : List DisputeRow) :
    Except String (List CoreDeal × List Deal × List DisputeRow) :=
  match update_deal_in_both_systems dealId g { disputed := some true } core lb with
  | .ok (c, l) => .ok (c, l, disputes)
  | .error e => .error e

/-- `AdminCommands.reject_deal`: calls `_update_deal_in_both_systems` with
`updates={'disputed': True, 'verified': False, 'points': 0}`. -/
def reject_deal (dealId g : ℕ) (core : List CoreDeal) (lb : List Deal) :
    Except String (List CoreDeal × List Deal) :=
  update_deal_in_both_systems dealId g
    { disputed := some true, verified := some false, points := some 0 } core lb

/-! ### Deal submission flow (ui/views/deal_submission.py) -/

/-- `LandscapingDealModal.calculate_landscaping_points(deal_value, base_points)`:
the modal's own value-tier rule. -/
def calculate_landscaping_points (deal_value base_points : ℚ) : ℚ :=
  if 10000 ≤ deal_value then base_points + 2
  else if 5000 ≤ deal_value then base_points + 1
  else base_points

/-- Points persisted for a landscaping submission.  The niche button computes
`base = PointsCalculator.calculate_points(t, "landscaping")` for the chosen
deal type `t`; the modal's `on_submit` runs the tier rule on the entered deal
value (if any) and `save_deal_to_both_systems` stores `int(points_to_award)`. -/
def landscaping_submission_points (deal_type : String) (deal_value : Option ℚ) : ℤ :=
  let base : ℤ := calculate_points deal_type "landscaping" 0
  match deal_value with
  | none => base
  | some v => int_trunc (calculate_landscaping_points v (base : ℚ))


/-! ### Evaluation lemmas for the calculator -/

theorem points_config_landscaping : points_config "landscaping" = landscaping_config := by
  simp [points_config]

theorem cfg_close_landscaping : cfg_get landscaping_config "close" 1 = 1 := by
  simp [cfg_get, landscaping_config, List.lookup]

theorem cfg_threshold_landscaping :
    cfg_get landscaping_config "bonus_threshold" 50000 = 50000 := by
  simp [cfg_get, landscaping_config, List.lookup]

theorem cfg_per50k_landscaping : cfg_get landscaping_config "bonus_per_50k" 1 = 1 := by
  simp [cfg_get, landscaping_config, List.lookup]

theorem calculate_points_close_landscaping_zero :
    calculate_points "close" "landscaping" 0 = 1 := by
  simp [calculate_points, pl_close, pl_landscaping, points_config_landscaping,
        cfg_close_landscaping, int_trunc]
  norm_num

theorem calculate_points_close_landscaping_above (v : ℚ) (hv : 50000 < v) :
    calculate_points "close" "landscaping" v = 1 + ⌊(v - 50000) / 50000⌋ := by
  have h0 : (0 : ℚ) < v := lt_trans (by norm_num) hv
  have hk : 0 ≤ ⌊(v - 50000) / 50000⌋ := by
    apply Int.floor_nonneg.mpr
    apply div_nonneg
    · linarith
    · norm_num
  simp only [calculate_points, pl_close, pl_landscaping, points_config_landscaping,
    cfg_close_landscaping, cfg_threshold_landscaping, cfg_per50k_landscaping]
  simp [h0, hv, mul_one]
  rw [show (1 : ℚ) + (⌊(v - 50000) / 50000⌋ : ℚ) = ((1 + ⌊(v - 50000) / 50000⌋ : ℤ) : ℚ) by push_cast; ring]
  rw [int_trunc_intCast]
  exact max_eq_right (by omega)

theorem cfg_selfgen_landscaping :
    cfg_get landscaping_config "self_generated" 1 = 2 := by
  simp [cfg_get, landscaping_config, List.lookup]

theorem calculate_points_selfgen_landscaping_zero :
    calculate_points "self_generated" "landscaping" 0 = 2 := by
  simp [calculate_points, pl_self_generated, pl_landscaping, points_config_landscaping,
        cfg_selfgen_landscaping, int_trunc]
  norm_num

/-- C8: in `PointsCalculator.calculate_points` a landscaping deal at exactly
the $50,000 threshold earns no bonus (total 1 for a closed deal), $100,000
earns exactly +1 bonus (total 2), $175,000 earns exactly +2 (total 3), and
for every value above the threshold the total is the base point plus
`⌊(value - 50000) / 50000⌋` bonus points. -/
theorem landscaping_tiered_bonus :
    calculate_points "close" "landscaping" 50000 = 1 ∧
    calculate_points "close" "landscaping" 100000 = 2 ∧
    calculate_points "close" "landscaping" 175000 = 3 ∧
    (∀ v : ℚ, 50000 < v →
      calculate_points "close" "landscaping" v = 1 + ⌊(v - 50000) / 50000⌋) := by
  refine ⟨?_, ?_, ?_, calculate_points_close_landscaping_above⟩
  · simp [calculate_points, pl_close, pl_landscaping, points_config_landscaping,
          cfg_close_landscaping, cfg_threshold_landscaping, int_trunc]
    norm_num
  · rw [calculate_points_close_landscaping_above 100000 (by norm_num)]
    norm_num
  · rw [calculate_points_close_landscaping_above 175000 (by norm_num)]
    norm_num

/-- C8 witness: the universally quantified clause of
`landscaping_tiered_bonus` applied at the concrete value $175,000. -/
theorem landscaping_tiered_bonus_witness :
    (50000 : ℚ) < 175000 ∧
    calculate_points "close" "landscaping" 175000 =
      1 + ⌊((175000 : ℚ) - 50000) / 50000⌋ := by
  exact ⟨by norm_num, landscaping_tiered_bonus.2.2.2 175000 (by norm_num)⟩

/-- C9: `calculate_points` always returns at least 1 point, for every niche,
deal type and deal value; in particular a fiber standard deal (fractional
base rate 0.2) yields exactly 1. -/
theorem calculate_points_min_one :
    (∀ (deal_type niche : String) (v : ℚ), 1 ≤ calculate_points deal_type niche v) ∧
    calculate_points "standard" "fiber" 0 = 1 := by
  constructor
  · intro dt n v
    simp only [calculate_points]
    exact le_max_left _ _
  · simp [calculate_points, pl_standard, pl_fiber, points_config, cfg_get, fiber_config,
          List.lookup, py_round]
    norm_num [Int.fract]

/-- C3 counterexample: a landscaping closed deal with value $100,000 is
persisted with 3 points by the submission flow, while
`PointsCalculator.calculate_points` yields 2 for the same deal, so the
submission flow does not persist the calculator's value. -/
theorem submission_vs_calculator_counterexample :
    landscaping_submission_points "close" (some 100000) = 3 ∧
    calculate_points "close" "landscaping" 100000 = 2 ∧
    landscaping_submission_points "close" (some 100000) ≠
      calculate_points "close" "landscaping" 100000 := by
  have h1 : landscaping_submission_points "close" (some 100000) = 3 := by
    simp [landscaping_submission_points, calculate_points_close_landscaping_zero,
          calculate_landscaping_points]
    norm_num [int_trunc]
  have h2 : calculate_points "close" "landscaping" 100000 = 2 := by
    rw [calculate_points_close_landscaping_above 100000 (by norm_num)]
    norm_num
  refine ⟨h1, h2, ?_⟩
  rw [h1, h2]
  decide

/-- C3 amended: the submission flow persists base points plus the modal's own
value-tier bonus — +2 for values of at least $10,000, +1 for values of at
least $5,000, 0 otherwise — not the calculator's floor rule. -/
theorem landscaping_submission_tier_rule :
    ∀ v : ℚ,
      landscaping_submission_points "close" (some v) =
        1 + (if 10000 ≤ v then 2 else if 5000 ≤ v then 1 else 0) ∧
      landscaping_submission_points "self_generated" (some v) =
        2 + (if 10000 ≤ v then 2 else if 5000 ≤ v then 1 else 0) := by
  intro v
  by_cases h10 : (10000 : ℚ) ≤ v
  · constructor <;>
      simp [landscaping_submission_points, calculate_landscaping_points, h10,
            calculate_points_close_landscaping_zero,
            calculate_points_selfgen_landscaping_zero] <;>
      norm_num [int_trunc]
  · by_cases h5 : (5000 : ℚ) ≤ v
    · constructor <;>
        simp [landscaping_submission_points, calculate_landscaping_points, h10, h5,
              calculate_points_close_landscaping_zero,
              calculate_points_selfgen_landscaping_zero] <;>
        norm_num [int_trunc]
    · constructor <;>
        simp [landscaping_submission_points, calculate_landscaping_points, h10, h5,
              calculate_points_close_landscaping_zero,
              calculate_points_selfgen_landscaping_zero] <;>
        norm_num [int_trunc]

/-! ### Concrete rows used by counterexamples and witnesses -/

/-- A deal row with the fields the ranking claims care about. -/
def sampleDeal (id g u : ℕ) (name ty : String) (pts : ℤ) (w : ℕ) (ver dis : Bool) : Deal :=
  { deal_id := id, guild_id := g, user_id := u, username := name, deal_type := ty,
    niche := "solar", points := pts, description := "x", verified := ver, disputed := dis,
    week_number := w, admin_submitted := false, admin_user_id := none }

/-- C1: the week-branch ranking query of `get_leaderboard_data` filters on
`verified = 1` only, so a deal with `disputed=true` and `verified=true` still
contributes its points and deal count: with a single such 5-point deal the
leaderboard total for its submitter is 5, not 0. -/
theorem disputed_deal_counted_in_leaderboard :
    (sampleDeal 1 1 10 "alice" "standard" 5 1 true true).disputed = true ∧
    get_leaderboard_data_det [sampleDeal 1 1 10 "alice" "standard" 5 1 true true] 1 1 =
      [{ user_id := 10, username := "alice", total_points := 5, standard_deals := 1,
         self_generated_deals := 0, total_deals := 1 }] := by
  constructor
  · rfl
  · decide

/-- The aggregate rows of the two tied participants in the C6 scenario. -/
def rowA : LeaderboardRow :=
  { user_id := 1, username := "a", total_points := 1, standard_deals := 1,
    self_generated_deals := 0, total_deals := 1 }

def rowB : LeaderboardRow :=
  { user_id := 2, username := "b", total_points := 1, standard_deals := 1,
    self_generated_deals := 0, total_deals := 1 }

def tieDeals : List Deal :=
  [sampleDeal 1 1 1 "a" "standard" 1 1 true false,
   sampleDeal 2 1 2 "b" "standard" 1 1 true false]

/-- C6 counterexample: with two participants tied on points and deal count,
both output orders satisfy everything the ranking query's `ORDER BY` clause
requires, and the order putting the larger submitter id first violates
submitter-id ordering — the query does not determine the tie order. -/
theorem leaderboard_tie_order_counterexample :
    validLeaderboardResult tieDeals 1 1 [rowA, rowB] ∧
    validLeaderboardResult tieDeals 1 1 [rowB, rowA] ∧
    [rowA, rowB] ≠ [rowB, rowA] ∧
    ¬ List.Pairwise (fun a b : LeaderboardRow =>
        a.total_points = b.total_points → a.total_deals = b.total_deals →
          a.user_id ≤ b.user_id) [rowB, rowA] := by
  refine ⟨?_, ?_, by decide, by decide⟩ <;>
  · unfold validLeaderboardResult lbOrdered
    decide

theorem lbLe_iff (a b : LeaderboardRow) :
    lbLe a b = true ↔
      (b.total_points < a.total_points ∨
        (a.total_points = b.total_points ∧ b.total_deals ≤ a.total_deals)) := by
  simp [lbLe]

/-- C6 amended: every admissible output of the ranking query is sorted by
total points descending and then total deal count descending — for any two
positions i < j, row i beats row j on points or ties on points with at least
as many deals — and each row is the correct aggregate of the submitter's
verified deals; the relative order of rows tied on both sort keys is not
constrained by the query. -/
theorem leaderboard_order_spec (deals : List Deal) (g w : ℕ)
    (out : List LeaderboardRow) (hout : validLeaderboardResult deals g w out) :
    (∀ i j : Fin out.length, (i : ℕ) < (j : ℕ) →
      ((out.get j).total_points < (out.get i).total_points ∨
        ((out.get i).total_points = (out.get j).total_points ∧
          (out.get j).total_deals ≤ (out.get i).total_deals))) ∧
    ∀ r ∈ out, r = aggFor (weekRows deals g w) r.user_id r.username := by
  obtain ⟨hperm, hord⟩ := hout
  constructor
  · intro i j hij
    have := (List.pairwise_iff_get.mp hord) i j hij
    exact (lbLe_iff _ _).mp this
  · intro r hr
    have hr2 : r ∈ canonicalAgg deals g w := hperm.mem_iff.mp hr
    unfold canonicalAgg at hr2
    rcases List.mem_map.mp hr2 with ⟨k, hk, rfl⟩
    simp [aggFor]

/-- C6 witness: `leaderboard_order_spec` applied to the concrete two-deal
state and one of its admissible outputs. -/
theorem leaderboard_order_spec_witness :
    validLeaderboardResult tieDeals 1 1 [rowA, rowB] ∧
    ((∀ i j : Fin ([rowA, rowB] : List LeaderboardRow).length, (i : ℕ) < (j : ℕ) →
      ((([rowA, rowB] : List LeaderboardRow).get j).total_points <
          (([rowA, rowB] : List LeaderboardRow).get i).total_points ∨
        ((([rowA, rowB] : List LeaderboardRow).get i).total_points =
            (([rowA, rowB] : List LeaderboardRow).get j).total_points ∧
          (([rowA, rowB] : List LeaderboardRow).get j).total_deals ≤
            (([rowA, rowB] : List LeaderboardRow).get i).total_deals))) ∧
    ∀ r ∈ ([rowA, rowB] : List LeaderboardRow),
      r = aggFor (weekRows tieDeals 1 1) r.user_id r.username) := by
  have hv : validLeaderboardResult tieDeals 1 1 [rowA, rowB] := by
    unfold validLeaderboardResult lbOrdered
    decide
  exact ⟨hv, leaderboard_order_spec tieDeals 1 1 [rowA, rowB] hv⟩

/-- The per-row effect of the reject update. -/
def rejectUpd (target g : ℕ) (d : Deal) : Deal :=
  if d.deal_id == target && d.guild_id == g then
    applyLbUpdate { disputed := some true, verified := some false, points := some 0 } d
  else d

theorem reject_deal_eq (target g : ℕ) (core : List CoreDeal) (lb : List Deal) :
    reject_deal target g core lb =
      .ok (core.map (fun d =>
            if d.deal_id == target && d.guild_id == g then
              applyCoreUpdate { disputed := some true, verified := some false, points := some 0 } d
            else d),
          lb.map (rejectUpd target g)) := rfl

theorem weekRows_map_reject (target g : ℕ) :
    ∀ lb : List Deal, (∀ d ∈ lb, d.deal_id = target → d.guild_id = g) →
    ∀ g2 w : ℕ,
      weekRows (lb.map (rejectUpd target g)) g2 w =
        weekRows (lb.filter (fun d => !(d.deal_id == target))) g2 w := by
  intro lb
  induction lb with
  | nil => intro _ g2 w; rfl
  | cons a l ih =>
    intro h g2 w
    have ha := h a (List.mem_cons_self a l)
    have hl : ∀ d ∈ l, d.deal_id = target → d.guild_id = g :=
      fun d hd => h d (List.mem_cons_of_mem a hd)
    have ihw := ih hl g2 w
    unfold weekRows at ihw ⊢
    by_cases hid : a.deal_id = target
    · have hg : a.guild_id = g := ha hid
      have hfa : rejectUpd target g a =
          { a with disputed := true, verified := false, points := 0 } := by
        simp [rejectUpd, applyLbUpdate, hid, hg]
      rw [List.map_cons, List.filter_cons, List.filter_cons, hfa]
      rw [if_neg (by simp), if_neg (by simp [hid]), ihw]
    · have hfa : rejectUpd target g a = a := by simp [rejectUpd, hid]
      have hq : List.filter (fun d => !(d.deal_id == target)) (a :: l) =
          a :: List.filter (fun d => !(d.deal_id == target)) l := by
        rw [List.filter_cons, if_pos (by simp [hid])]
      rw [List.map_cons, hq, List.filter_cons, hfa, List.filter_cons, ihw]

/-- C7: rejecting a deal through the admin flow succeeds, stores 0 points and
`verified=false` on the target deal in the leaderboard store, and makes the
ranking query's selected rows identical to what they would be with the deal
deleted — the rejected deal contributes nothing to any total on the next
ranking query.  The hypothesis states that the deal id is not reused in a
different organization (deal ids are an autoincrement primary key and the
admin command runs in the deal's guild). -/
theorem reject_deal_zeroing (core : List CoreDeal) (lb : List Deal) (target g : ℕ)
    (h : ∀ d ∈ lb, d.deal_id = target → d.guild_id = g) :
    ∃ core2 lb2,
      reject_deal target g core lb = .ok (core2, lb2) ∧
      (∀ d ∈ lb2, d.deal_id = target → d.points = 0 ∧ d.verified = false) ∧
      ∀ g2 w : ℕ,
        weekRows lb2 g2 w = weekRows (lb.filter (fun d => !(d.deal_id == target))) g2 w := by
  refine ⟨_, _, reject_deal_eq target g core lb, ?_, weekRows_map_reject target g lb h⟩
  intro d hd hdid
  rcases List.mem_map.mp hd with ⟨d0, hd0, rfl⟩
  by_cases hc : (d0.deal_id == target && d0.guild_id == g) = true
  · simp [rejectUpd, hc, applyLbUpdate]
  · exfalso
    have hid0 : d0.deal_id = target := by
      have : rejectUpd target g d0 = d0 := by simp [rejectUpd, hc]
      rw [this] at hdid
      exact hdid
    have := h d0 hd0 hid0
    simp [hid0, this] at hc

/-- C7 witness: `reject_deal_zeroing` applied to a one-deal store. -/
theorem reject_deal_zeroing_witness :
    (∀ d ∈ [sampleDeal 3 1 10 "alice" "standard" 5 1 true false],
        d.deal_id = 3 → d.guild_id = 1) ∧
    ∃ core2 lb2,
      reject_deal 3 1 [] [sampleDeal 3 1 10 "alice" "standard" 5 1 true false] =
        .ok (core2, lb2) ∧
      (∀ d ∈ lb2, d.deal_id = 3 → d.points = 0 ∧ d.verified = false) ∧
      ∀ g2 w : ℕ,
        weekRows lb2 g2 w =
          weekRows (([sampleDeal 3 1 10 "alice" "standard" 5 1 true false] : List Deal).filter
            (fun d => !(d.deal_id == 3))) g2 w := by
  refine ⟨by decide, ?_⟩
  exact reject_deal_zeroing [] [sampleDeal 3 1 10 "alice" "standard" 5 1 true false] 3 1
    (by decide)

/-- C2 (divergence witness): `reset_guild_tournament` inserts a new row into
`tournament_weeks` and saves a snapshot, but never writes the
`tournament_settings` table that `get_current_week_number` reads, so the
observable current week number is unchanged after one advance and after two
successive advances — and an organization with empty settings stays on
week 1 forever. -/
theorem reset_guild_tournament_week_unchanged :
    (∀ (s : LbState) (g : ℕ) (d1 d2 : String),
      get_current_week_number (reset_guild_tournament s g d1).settings g =
        get_current_week_number s.settings g ∧
      get_current_week_number
          (reset_guild_tournament (reset_guild_tournament s g d1) g d2).settings g =
        get_current_week_number s.settings g) ∧
    get_current_week_number
      (reset_guild_tournament ⟨[], [], [], ⟨[], 0⟩⟩ 1 "2025-01-06").settings 1 = 1 := by
  refine ⟨fun s g d1 d2 => ⟨rfl, rfl⟩, rfl⟩

/-- The concrete cross-organization store for the C4 counterexample: the deal
exists but belongs to guild 2. -/
def crossCore : List CoreDeal :=
  [{ deal_id := 7, guild_id := 2, user_id := 3, niche := "solar",
     deal_type := "standard", points_awarded := 1, admin_submitted := false }]

def crossLb : List Deal := [sampleDeal 7 2 3 "bob" "standard" 1 1 true false]

/-- C4 counterexample: an admin mutation naming deal 7 under guild 1, while
the deal belongs to guild 2, completes as a success with both stores
unchanged — it does not fail with any error, contradicting the claimed
PermissionDenied failure. -/
theorem cross_guild_update_counterexample :
    update_deal_in_both_systems 7 1 { points := some 99 } crossCore crossLb =
      .ok (crossCore, crossLb) ∧
    ∀ e : String,
      update_deal_in_both_systems 7 1 { points := some 99 } crossCore crossLb ≠ .error e := by
  constructor
  · rfl
  · intro e he
    rw [show update_deal_in_both_systems 7 1 { points := some 99 } crossCore crossLb =
        .ok (crossCore, crossLb) from rfl] at he
    exact Except.noConfusion he

theorem map_id_of_eq {α : Type} (f : α → α) :
    ∀ l : List α, (∀ x ∈ l, f x = x) → l.map f = l := by
  intro l
  induction l with
  | nil => intro _; rfl
  | cons a t ih =>
    intro h
    rw [List.map_cons, h a (List.mem_cons_self a t),
      ih (fun x hx => h x (List.mem_cons_of_mem a hx))]

/-- C4 amended: when the named deal id exists only under a different
organization, the admin update changes no stored row in either store, and the
operation completes without any error — it silently does nothing. -/
theorem cross_guild_update_noop (dealId g : ℕ) (u : DealUpdates)
    (core : List CoreDeal) (lb : List Deal)
    (hc : ∀ d ∈ core, d.deal_id = dealId → d.guild_id ≠ g)
    (hl : ∀ d ∈ lb, d.deal_id = dealId → d.guild_id ≠ g) :
    update_deal_in_both_systems dealId g u core lb = .ok (core, lb) := by
  unfold update_deal_in_both_systems
  have h1 : core.map (fun d =>
      if d.deal_id == dealId && d.guild_id == g then applyCoreUpdate u d else d) = core := by
    apply map_id_of_eq
    intro d hd
    rw [if_neg]
    intro hcnd
    simp only [Bool.and_eq_true, beq_iff_eq] at hcnd
    exact hc d hd hcnd.1 hcnd.2
  have h2 : lb.map (fun d =>
      if d.deal_id == dealId && d.guild_id == g then applyLbUpdate u d else d) = lb := by
    apply map_id_of_eq
    intro d hd
    rw [if_neg]
    intro hcnd
    simp only [Bool.and_eq_true, beq_iff_eq] at hcnd
    exact hl d hd hcnd.1 hcnd.2
  rw [h1, h2]

/-- C4 witness: `cross_guild_update_noop` at the concrete cross-guild store. -/
theorem cross_guild_update_noop_witness :
    (∀ d ∈ crossCore, d.deal_id = 7 → d.guild_id ≠ 1) ∧
    (∀ d ∈ crossLb, d.deal_id = 7 → d.guild_id ≠ 1) ∧
    update_deal_in_both_systems 7 1 { verified := some false } crossCore crossLb =
      .ok (crossCore, crossLb) := by
  refine ⟨by decide, by decide, ?_⟩
  exact cross_guild_update_noop 7 1 { verified := some false } crossCore crossLb
    (by decide) (by decide)

/-- The per-row effect of the dispute update. -/
def disputeUpd (dealId g : ℕ) (d : Deal) : Deal :=
  if d.deal_id == dealId && d.guild_id == g then
    applyLbUpdate { disputed := some true } d
  else d

theorem dispute_deal_eq (dealId g : ℕ) (core : List CoreDeal) (lb : List Deal)
    (disputes : List DisputeRow) :
    dispute_deal dealId g core lb disputes =
      .ok (core.map (fun d =>
            if d.deal_id == dealId && d.guild_id == g then
              applyCoreUpdate { disputed := some true } d
            else d),
          lb.map (disputeUpd dealId g), disputes) := rfl

/-- A deal that is already under dispute. -/
def disputedLb : List Deal := [sampleDeal 7 1 3 "bob" "standard" 1 1 true true]

/-- C5 counterexample: raising a dispute against deal 7, which is already
disputed, completes as a success (the already-true disputed flag is written
again) and the disputes table is left exactly as it was — empty — so the
operation neither fails with an error nor creates any dispute record. -/
theorem dispute_already_disputed_counterexample :
    dispute_deal 7 1 [] disputedLb [] = .ok ([], disputedLb, []) ∧
    ∀ e : String, dispute_deal 7 1 [] disputedLb [] ≠ .error e := by
  constructor
  · rfl
  · intro e he
    rw [show dispute_deal 7 1 [] disputedLb [] = .ok ([], disputedLb, []) from rfl] at he
    exact Except.noConfusion he

/-- C5 amended: the admin dispute command never fails and never touches the
disputes table; it only sets the disputed flag of the matching deal row.  In
particular a second dispute against an already-disputed deal is an error-free
no-op on the flag and adds no dispute record (so no duplicate pending dispute
can ever be created by it). -/
theorem dispute_deal_no_dispute_row (dealId g : ℕ) (core : List CoreDeal)
    (lb : List Deal) (disputes : List DisputeRow) :
    ∃ core2 lb2,
      dispute_deal dealId g core lb disputes = .ok (core2, lb2, disputes) ∧
      lb2.length = lb.length ∧
      (∀ d ∈ lb2, d.deal_id = dealId → d.guild_id = g → d.disputed = true) ∧
      ∀ e : String, dispute_deal dealId g core lb disputes ≠ .error e := by
  refine ⟨_, _, dispute_deal_eq dealId g core lb disputes, by simp, ?_, ?_⟩
  · intro d hd hid hg
    rcases List.mem_map.mp hd with ⟨d0, hd0, rfl⟩
    by_cases hc : (d0.deal_id == dealId && d0.guild_id == g) = true
    · simp [disputeUpd, hc, applyLbUpdate]
    · exfalso
      have hu : disputeUpd dealId g d0 = d0 := by simp [disputeUpd, hc]
      rw [hu] at hid hg
      simp [hid, hg] at hc
  · intro e he
    rw [dispute_deal_eq dealId g core lb disputes] at he
    exact Except.noConfusion he

/-! ### Snapshot claims -/

/-- Table invariant of `leaderboard_snapshots`: every stored snapshot id is
below the autoincrement counter. -/
def SnapInv (t : SnapTable) : Prop := ∀ r ∈ t.rows, r.snapshot_id < t.nextId

/-- The rows a snapshot save appends: one per entry, with consecutive ids. -/
def snapRowsFrom (g : ℕ) (data : List LeaderboardRow) (w : ℕ) (date : String)
    (n : ℕ) : List SnapshotRow :=
  match data with
  | [] => []
  | e :: rest => mkSnapshotRow n g e w date :: snapRowsFrom g rest w date (n + 1)

theorem snapRowsFrom_length (g w : ℕ) (date : String) :
    ∀ (data : List LeaderboardRow) (n : ℕ),
      (snapRowsFrom g data w date n).length = data.length := by
  intro data
  induction data with
  | nil => intro n; rfl
  | cons e rest ih => intro n; simp [snapRowsFrom, ih]

theorem save_snapshot_appends (g w : ℕ) (date : String) :
    ∀ (data : List LeaderboardRow) (t : SnapTable), SnapInv t →
      (save_leaderboard_snapshot t g data w date).rows
        = t.rows ++ snapRowsFrom g data w date t.nextId ∧
      (save_leaderboard_snapshot t g data w date).nextId = t.nextId + data.length ∧
      SnapInv (save_leaderboard_snapshot t g data w date) := by
  intro data
  induction data with
  | nil =>
    intro t ht
    exact ⟨by simp [save_leaderboard_snapshot, snapRowsFrom],
      by simp [save_leaderboard_snapshot], ht⟩
  | cons e rest ih =>
    intro t ht
    have hfil : t.rows.filter (fun r => r.snapshot_id ≠ t.nextId) = t.rows := by
      apply List.filter_eq_self.mpr
      intro r hr
      simp
      exact Nat.ne_of_lt (ht r hr)
    have hins : insert_or_replace_snapshot t g e w date =
        ⟨t.rows ++ [mkSnapshotRow t.nextId g e w date], t.nextId + 1⟩ := by
      unfold insert_or_replace_snapshot
      rw [hfil]
    have hinv : SnapInv (insert_or_replace_snapshot t g e w date) := by
      rw [hins]
      intro r hr
      rcases List.mem_append.mp hr with h | h
      · exact Nat.lt_succ_of_lt (ht r h)
      · simp at h
        rw [h]
        exact Nat.lt_succ_self _
    have hstep : save_leaderboard_snapshot t g (e :: rest) w date
        = save_leaderboard_snapshot (insert_or_replace_snapshot t g e w date) g rest w date :=
      rfl
    obtain ⟨h1, h2, h3⟩ := ih (insert_or_replace_snapshot t g e w date) hinv
    refine ⟨?_, ?_, by rw [hstep]; exact h3⟩
    · rw [hstep, h1, hins]
      simp [snapRowsFrom, List.append_assoc]
    · rw [hstep, h2, hins]
      simp [List.length_cons]
      omega

/-- C10: saving a leaderboard snapshot appends exactly one new row per
leaderboard entry and leaves every previously stored snapshot row in place:
because the fresh autoincrement id can never collide with an existing row,
the `INSERT OR REPLACE` never replaces, so repeating a snapshot for the same
organization, week, participants and date adds rows instead of overwriting. -/
theorem save_snapshot_append_only (t : SnapTable) (g : ℕ) (data : List LeaderboardRow)
    (w : ℕ) (date : String) (ht : SnapInv t) :
    (save_leaderboard_snapshot t g data w date).rows
      = t.rows ++ snapRowsFrom g data w date t.nextId ∧
    (save_leaderboard_snapshot t g data w date).rows.length
      = t.rows.length + data.length ∧
    SnapInv (save_leaderboard_snapshot t g data w date) := by
  obtain ⟨h1, h2, h3⟩ := save_snapshot_appends g w date data t ht
  refine ⟨h1, ?_, h3⟩
  rw [h1, List.length_append, snapRowsFrom_length]

/-- C10 witness: `save_snapshot_append_only` applied to a table already
holding one snapshot row — the stored row survives and one row is added. -/
theorem save_snapshot_append_only_witness :
    SnapInv ⟨[mkSnapshotRow 0 1 rowA 1 "2025-01-01"], 1⟩ ∧
    ((save_leaderboard_snapshot ⟨[mkSnapshotRow 0 1 rowA 1 "2025-01-01"], 1⟩ 1 [rowA] 1
        "2025-01-01").rows
      = [mkSnapshotRow 0 1 rowA 1 "2025-01-01"] ++ snapRowsFrom 1 [rowA] 1 "2025-01-01" 1 ∧
    (save_leaderboard_snapshot ⟨[mkSnapshotRow 0 1 rowA 1 "2025-01-01"], 1⟩ 1 [rowA] 1
        "2025-01-01").rows.length
      = ([mkSnapshotRow 0 1 rowA 1 "2025-01-01"] : List SnapshotRow).length + 1 ∧
    SnapInv (save_leaderboard_snapshot ⟨[mkSnapshotRow 0 1 rowA 1 "2025-01-01"], 1⟩ 1 [rowA] 1
        "2025-01-01")) := by
  refine ⟨?_, ?_⟩
  · unfold SnapInv
    decide
  · exact save_snapshot_append_only ⟨[mkSnapshotRow 0 1 rowA 1 "2025-01-01"], 1⟩ 1 [rowA] 1
      "2025-01-01" (by unfold SnapInv; decide)
end DannyBot
